import Mathlib

/-!
Verification of the deterministic comparison engine of the MCIdent
config-compare backend (`src/python-backend/main.py`).

The Python values flowing through the engine (parsed JSON/YAML documents)
are modelled by the inductive type `ConfigValue`; Python dictionaries are
modelled as insertion-ordered association lists (`List (String × ConfigValue)`)
whose keys are unique whenever they represent a real Python dict.
Numeric scalars are modelled as integers plus floats (`PyFloat`: NaN,
signed infinities, and finite values carried as exact rationals — every
binary64 float is a dyadic rational, and allowing all of ℚ only enlarges
the domain the theorems quantify over). Character operations (`lower`,
`isdigit`) are modelled on ASCII, which covers every string the engine's
keyword heuristics use.

The JSON and YAML parsers are external libraries (`json.loads`,
`yaml.safe_load`), not code of this repository; the functions that call
them (`parse_config`, `perform_basic_comparison`,
`perform_basic_file_analysis`) are therefore parameterised by two abstract
parsers `jp yp : String → Option ConfigValue`, where `none` models the
library raising its decode error.
-/

/-- A Python float as far as the engine's semantics observe it: NaN (never
equal to anything, itself included), signed infinities, and finite values
carried as exact rationals. -/
inductive PyFloat where
  | nan : PyFloat
  | inf : Bool → PyFloat
  | finite : ℚ → PyFloat

/-- A Python value produced by parsing a configuration document:
`None`, booleans, integers, floats, strings, lists, and dicts
(modelled as insertion-ordered association lists). -/
inductive ConfigValue where
  | VNone : ConfigValue
  | VBool : Bool → ConfigValue
  | VInt : Int → ConfigValue
  | VFloat : PyFloat → ConfigValue
  | VStr : String → ConfigValue
  | VSeq : List ConfigValue → ConfigValue
  | VMap : List (String × ConfigValue) → ConfigValue

open ConfigValue

/-- Python `v is None`. -/
def isNone : ConfigValue → Bool
  | VNone => true
  | _ => false

/-- Whether `sub` occurs as a contiguous sublist of `l`. -/
def isInfixList (sub l : List Char) : Bool :=
  match l with
  | [] => sub.isEmpty
  | _ :: tl => List.isPrefixOf sub l || isInfixList sub tl

/-- Python `sub in s` on strings: substring containment. -/
def pyIn (sub s : String) : Bool :=
  isInfixList sub.toList s.toList

/-- ASCII lowercasing of one character (Python `str.lower`, restricted to
ASCII, which covers every keyword the engine compares against). -/
def pyCharLower (c : Char) : Char :=
  if 65 <= c.toNat && c.toNat <= 90 then Char.ofNat (c.toNat + 32) else c

/-- Python `s.lower()` (ASCII). -/
def pyLower (s : String) : String :=
  String.mk (s.toList.map pyCharLower)

/-- Python `any(kw in s for kw in kws)`. -/
def hasAny (kws : List String) (s : String) : Bool :=
  kws.any (fun kw => pyIn kw s)

/-- Python `s.isdigit()` (restricted to ASCII digits): true iff the string
is nonempty and consists of digits only. -/
def pyIsDigit (s : String) : Bool :=
  !s.isEmpty && s.toList.all Char.isDigit

/-- Python `int(s)` on a string of ASCII digits. -/
def strToNat (s : String) : Nat :=
  s.toList.foldl (fun a c => 10 * a + (c.toNat - 48)) 0

/-- Python `str` of a float. NaN and the infinities render exactly as in
Python; an integral finite float renders as Python does ("2.0"); Python
renders other finite floats with the shortest decimal that round-trips in
binary64, an algorithm outside this embedding, so those get a stand-in
exact-rational rendering — no judged claim evaluates it. -/
def pyFloatStr : PyFloat → String
  | PyFloat.nan => "nan"
  | PyFloat.inf true => "inf"
  | PyFloat.inf false => "-inf"
  | PyFloat.finite q =>
      if q.den = 1 then toString q.num ++ ".0"
      else toString q.num ++ "/" ++ toString q.den

/-- Python `==` on floats: NaN is unequal to everything, itself included;
infinities compare by sign; finite values compare exactly. -/
def pyFloatEq : PyFloat → PyFloat → Bool
  | PyFloat.nan, _ => false
  | _, PyFloat.nan => false
  | PyFloat.inf b1, PyFloat.inf b2 => b1 == b2
  | PyFloat.finite q1, PyFloat.finite q2 => q1 == q2
  | _, _ => false

mutual

/-- Python `repr` of a value (as used by `str` on lists and dicts).
String quoting is modelled with single quotes, the common case. -/
def pyRepr : ConfigValue → String
  | VNone => "None"
  | VBool true => "True"
  | VBool false => "False"
  | VInt n => toString n
  | VFloat f => pyFloatStr f
  | VStr s => "\x27" ++ s ++ "\x27"
  | VSeq xs => "[" ++ String.intercalate ", " (pyReprList xs) ++ "]"
  | VMap m => "\x7b" ++ String.intercalate ", " (pyReprDict m) ++ "\x7d"

def pyReprList : List ConfigValue → List String
  | [] => []
  | x :: xs => pyRepr x :: pyReprList xs

def pyReprDict : List (String × ConfigValue) → List String
  | [] => []
  | (k, v) :: rest => ("\x27" ++ k ++ "\x27: " ++ pyRepr v) :: pyReprDict rest

end

/-- Python `str` of a value: strings unchanged, `True`/`False`/`None`,
decimal integers, `repr` for containers. -/
def pyStr : ConfigValue → String
  | VStr s => s
  | VBool true => "True"
  | VBool false => "False"
  | VNone => "None"
  | VInt n => toString n
  | VFloat f => pyFloatStr f
  | VSeq xs => pyRepr (VSeq xs)
  | VMap m => pyRepr (VMap m)

mutual

/-- Python `==` on parsed config values. Booleans compare equal to the
integers 0/1 (Python bool is an int subtype); numbers compare exactly
across int/float, and NaN is unequal to everything including itself, so
this equality is not reflexive; dicts compare by size plus per-key value
equality (on dicts with unique keys — the only ones a Python parse can
yield — the `any`-based key search below is exactly dict lookup). The
engine only ever compares a dev-parse value against a prod-parse value,
so CPython's identity shortcut inside container comparisons, which needs
a shared object, can never fire on the modelled comparisons. -/
def pyEq : ConfigValue → ConfigValue → Bool
  | VNone, VNone => true
  | VBool a, VBool b => a == b
  | VBool a, VInt n => (if a then (1 : Int) else 0) == n
  | VInt n, VBool b => n == (if b then (1 : Int) else 0)
  | VInt m, VInt n => m == n
  | VFloat a, VFloat b => pyFloatEq a b
  | VInt n, VFloat f => pyFloatEq (PyFloat.finite (n : ℚ)) f
  | VFloat f, VInt n => pyFloatEq f (PyFloat.finite (n : ℚ))
  | VBool a, VFloat f => pyFloatEq (PyFloat.finite (if a then 1 else 0)) f
  | VFloat f, VBool a => pyFloatEq f (PyFloat.finite (if a then 1 else 0))
  | VStr s, VStr t => s == t
  | VSeq xs, VSeq ys => pyEqList xs ys
  | VMap m1, VMap m2 => m1.length == m2.length && pyEqDict m1 m2
  | _, _ => false

def pyEqList : List ConfigValue → List ConfigValue → Bool
  | [], [] => true
  | x :: xs, y :: ys => pyEq x y && pyEqList xs ys
  | _, _ => false

def pyEqDict : List (String × ConfigValue) → List (String × ConfigValue) → Bool
  | [], _ => true
  | (k, v) :: rest, m2 =>
      m2.any (fun kv => k == kv.1 && pyEq v kv.2) && pyEqDict rest m2

end

mutual

/-- Whether a value contains no float NaN anywhere. Python's NaN compares
unequal even to itself, so only NaN-free values are reflexive under
`pyEq`. -/
def noNaN : ConfigValue → Bool
  | VFloat PyFloat.nan => false
  | VSeq xs => noNaNList xs
  | VMap m => noNaNDict m
  | _ => true

def noNaNList : List ConfigValue → Bool
  | [] => true
  | x :: xs => noNaN x && noNaNList xs

def noNaNDict : List (String × ConfigValue) → Bool
  | [] => true
  | (_, v) :: rest => noNaN v && noNaNDict rest

end

/-- Python `d.get(key, default)` on an association-list dict. -/
def dictGet (m : List (String × ConfigValue)) (k : String) (dflt : ConfigValue) :
    ConfigValue :=
  match m.lookup k with
  | some v => v
  | none => dflt

/-- One step of Python `dict(items)` construction: a repeated key keeps its
first position but takes the later value; a new key is appended. -/
def dictInsert (m : List (String × ConfigValue)) (k : String) (v : ConfigValue) :
    List (String × ConfigValue) :=
  if m.any (fun kv => kv.1 == k) then
    m.map (fun kv => if kv.1 == k then (k, v) else kv)
  else
    m ++ [(k, v)]

/-- Python `dict(items)`. -/
def dictOf (items : List (String × ConfigValue)) : List (String × ConfigValue) :=
  items.foldl (fun acc kv => dictInsert acc kv.1 kv.2) []

/-- `parse_config` (main.py lines 82-92), parameterised by the two library
parsers: try JSON first, then YAML, else the `ValueError`. -/
def parse_config (jp yp : String → Option ConfigValue) (config_str : String) :
    Except String ConfigValue :=
  match jp config_str with
  | some v => Except.ok v
  | none =>
      match yp config_str with
      | some v => Except.ok v
      | none => Except.error "Invalid configuration format. Must be JSON or YAML."

/-- The dotted-key construction of `flatten_dict` (main.py line 98):
new key is the parent key joined with the separator, or the bare key when
the parent key is empty. -/
def joinKey (parent_key sep k : String) : String :=
  if parent_key = "" then k else parent_key ++ sep ++ k

mutual

/-- The `items` list accumulated by the loop of `flatten_dict`
(main.py lines 96-102). -/
def flattenItems (l : List (String × ConfigValue)) (parent_key sep : String) :
    List (String × ConfigValue) :=
  match l with
  | [] => []
  | (k, v) :: rest =>
      flattenEntry v (joinKey parent_key sep k) sep ++ flattenItems rest parent_key sep

/-- The contribution of one `(k, v)` pair (main.py lines 99-102): a dict
value is recursively flattened and its items extended onto the list
(`flatten_dict(v, new_key, sep).items()`, which is
`dictOf (flattenItems v new_key sep)` — see `flatten_dict` below),
anything else — scalar or sequence — is appended as a single
`(new_key, v)` pair. -/
def flattenEntry (v : ConfigValue) (new_key sep : String) :
    List (String × ConfigValue) :=
  match v with
  | VMap m => dictOf (flattenItems m new_key sep)
  | VNone => [(new_key, VNone)]
  | VBool b => [(new_key, VBool b)]
  | VInt n => [(new_key, VInt n)]
  | VFloat f => [(new_key, VFloat f)]
  | VStr s => [(new_key, VStr s)]
  | VSeq xs => [(new_key, VSeq xs)]

end

/-- `flatten_dict` (main.py lines 94-103): the accumulated items turned into
a dict (`dict(items)`). The recursive call inside `flattenEntry` is exactly
this function. -/
def flatten_dict (d : List (String × ConfigValue)) (parent_key sep : String) :
    List (String × ConfigValue) :=
  dictOf (flattenItems d parent_key sep)

mutual

/-- Number of non-mapping leaves of the values of a dict, counting a
sequence as a single leaf (the flattener never descends into sequences). -/
def leafCountDict : List (String × ConfigValue) → Nat
  | [] => 0
  | (_, v) :: rest => leafCountVal v + leafCountDict rest

def leafCountVal : ConfigValue → Nat
  | VMap m => leafCountDict m
  | VNone => 1
  | VBool _ => 1
  | VInt _ => 1
  | VFloat _ => 1
  | VStr _ => 1
  | VSeq _ => 1

end

mutual

/-- Collision-freeness of the dotted keys produced below one entry of a
dict being flattened: every nested `dict(items)` conversion merges
nothing. -/
def noCollideEntry (v : ConfigValue) (new_key sep : String) : Bool :=
  match v with
  | VMap m =>
      decide (((flattenItems m new_key sep).map Prod.fst).Nodup) &&
        noCollideEntries m new_key sep
  | _ => true

def noCollideEntries (l : List (String × ConfigValue)) (parent_key sep : String) :
    Bool :=
  match l with
  | [] => true
  | (k, v) :: rest =>
      noCollideEntry v (joinKey parent_key sep k) sep &&
        noCollideEntries rest parent_key sep

end

/-- Collision-freeness of the dotted keys produced by flattening a dict: at
the top level and recursively below, the emitted key list has no duplicates
(so the `dict(items)` conversions merge nothing). -/
def noCollide (d : List (String × ConfigValue)) (parent_key sep : String) : Bool :=
  decide (((flattenItems d parent_key sep).map Prod.fst).Nodup) &&
    noCollideEntries d parent_key sep

/-- Python truthiness of an `Optional[int]`: `None` and `0` are falsy. -/
def optTruthy : Option Nat → Bool
  | none => false
  | some n => n != 0

/-- Python `o in l` for an `Optional[int]` against a list of ints:
`None in l` is `False`. -/
def optMem (o : Option Nat) (l : List Nat) : Bool :=
  match o with
  | some n => l.contains n
  | none => false

/-- The lowercased stringification used at main.py lines 114-115:
`str(v).lower() if v is not None else ""`. -/
def strLowerOrEmpty (v : ConfigValue) : String :=
  if isNone v then "" else pyLower (pyStr v)

/-- The standard-port list of main.py line 150 (in source order). -/
def standard_ports : List Nat := [80, 443, 3000, 8000, 5000, 8080]

/-- The default decision block of `determine_problematic_environment`
(main.py lines 159-168): every branch returns the dev value with
environment `dev`. -/
def defaultDecision (dev_val prod_val : ConfigValue) (dev_str prod_str : String) :
    String × String :=
  if pyEq dev_val prod_val = false then
    if hasAny ["test", "dev", "local", "debug", "mock", "fake"] dev_str then
      (pyStr dev_val, "dev")
    else if hasAny ["prod", "production", "live"] prod_str then
      (pyStr dev_val, "dev")
    else (pyStr dev_val, "dev")
  else (pyStr dev_val, "dev")

/-- `determine_problematic_environment` (main.py lines 105-168): the
rule chain deciding which environment holds the problematic value,
returning `(problematic_value, environment)`. -/
def determine_problematic_environment (key : String) (dev_val prod_val : ConfigValue) :
    String × String :=
  if isNone dev_val && !isNone prod_val then (pyStr prod_val, "prod")
  else if isNone prod_val && !isNone dev_val then (pyStr dev_val, "dev")
  else
    let dev_str := strLowerOrEmpty dev_val
    let prod_str := strLowerOrEmpty prod_val
    let key_lower := pyLower key
    if hasAny ["password", "secret", "key", "token"] key_lower then
      if hasAny ["test", "default", "demo", "password", "123"] dev_str then
        (pyStr dev_val, "dev")
      else (pyStr prod_val, "prod")
    else if pyIn "debug" key_lower then
      if ["true", "1", "yes", "on", "enabled"].contains prod_str then
        (pyStr prod_val, "prod")
      else (pyStr dev_val, "dev")
    else if hasAny ["host", "url", "endpoint", "server"] key_lower then
      if hasAny ["localhost", "127.0.0.1", "dev", "test", "staging"] dev_str then
        (pyStr dev_val, "dev")
      else (pyStr prod_val, "prod")
    else if hasAny ["ssl", "tls", "secure", "https"] key_lower then
      if ["false", "0", "no", "off", "disabled"].contains prod_str then
        (pyStr prod_val, "prod")
      else (pyStr dev_val, "dev")
    else if pyIn "port" key_lower then
      let dev_port := if pyIsDigit dev_str then some (strToNat dev_str) else none
      let prod_port := if pyIsDigit prod_str then some (strToNat prod_str) else none
      if optTruthy dev_port && !optMem dev_port standard_ports &&
          optMem prod_port standard_ports then
        (pyStr dev_val, "dev")
      else if optTruthy prod_port && !optMem prod_port standard_ports &&
          optMem dev_port standard_ports then
        (pyStr prod_val, "prod")
      else defaultDecision dev_val prod_val dev_str prod_str
    else defaultDecision dev_val prod_val dev_str prod_str

/-- `ComparisonResult` (main.py lines 47-55). -/
structure ComparisonResult where
  key : String
  devValue : String
  prodValue : String
  problematicValue : String
  problematicEnvironment : String
  observation : String
  suggestion : String
  risk : String
deriving DecidableEq

/-- The risk-level assignment of `perform_basic_comparison`
(main.py lines 283-288): Medium by default, High for security keywords,
Low for debug/log/test keywords. -/
def basicRisk (key : String) : String :=
  if hasAny ["password", "secret", "key", "token"] (pyLower key) then "High"
  else if hasAny ["debug", "log", "test"] (pyLower key) then "Low"
  else "Medium"

/-- The key-union loop of `perform_basic_comparison` (main.py line 276):
`set(dev) | set(prod)`, modelled as dev keys followed by prod-only keys
(the Python set order is unspecified; only membership matters). -/
def unionKeys (ks1 ks2 : List String) : List String :=
  ks1 ++ ks2.filter (fun k => !ks1.contains k)

/-- The comparison loop of `perform_basic_comparison`
(main.py lines 272-304) over two already-parsed dicts: flatten both,
take the key union, and emit a record for each key whose two values
differ, with an absent key looked up as the string `"MISSING"`. -/
def comparisonResults (dev_dict prod_dict : List (String × ConfigValue)) :
    List ComparisonResult :=
  let dev_flat := flatten_dict dev_dict "" "."
  let prod_flat := flatten_dict prod_dict "" "."
  let all_keys := unionKeys (dev_flat.map Prod.fst) (prod_flat.map Prod.fst)
  all_keys.filterMap fun key =>
    let dev_val := dictGet dev_flat key (VStr "MISSING")
    let prod_val := dictGet prod_flat key (VStr "MISSING")
    if pyEq dev_val prod_val then none
    else
      some ⟨key, pyStr dev_val, pyStr prod_val,
        (determine_problematic_environment key dev_val prod_val).1,
        (determine_problematic_environment key dev_val prod_val).2,
        "Configuration mismatch in " ++ key,
        "Review and align " ++ key ++ " values between environments",
        basicRisk key⟩

/-- `perform_basic_comparison` (main.py lines 266-307), parameterised by
the two library parsers. A parse failure, or a parse result that is not a
mapping (on which the Python `flatten_dict` raises `AttributeError`), is
caught by the surrounding `except` and surfaced as the
"Configuration parsing error" HTTP 400. -/
def perform_basic_comparison (jp yp : String → Option ConfigValue)
    (dev_config prod_config : String) : Except String (List ComparisonResult) :=
  match parse_config jp yp dev_config with
  | Except.error e => Except.error ("Configuration parsing error: " ++ e)
  | Except.ok dev_parsed =>
      match parse_config jp yp prod_config with
      | Except.error e => Except.error ("Configuration parsing error: " ++ e)
      | Except.ok prod_parsed =>
          match dev_parsed, prod_parsed with
          | VMap dev_dict, VMap prod_dict =>
              Except.ok (comparisonResults dev_dict prod_dict)
          | _, _ =>
              Except.error "Configuration parsing error: object has no attribute items"

/-- `HealthScore`: the dict returned by the two scorers
(main.py lines 173-178 and 191-196). -/
structure HealthScore where
  score : Int
  highRisk : Nat
  mediumRisk : Nat
  lowRisk : Nat
deriving DecidableEq

/-- `calculate_health_score` (main.py lines 170-196): 100 minus 25 per
High, 10 per Medium, 5 per Low, floored at 0; an empty record list
short-circuits to a perfect score. -/
def calculate_health_score (results : List ComparisonResult) : HealthScore :=
  if results.isEmpty then ⟨100, 0, 0, 0⟩
  else
    let high_risk := (results.filter (fun r => r.risk == "High")).length
    let medium_risk := (results.filter (fun r => r.risk == "Medium")).length
    let low_risk := (results.filter (fun r => r.risk == "Low")).length
    ⟨max 0 (100 - 25 * (high_risk : Int) - 10 * (medium_risk : Int) -
        5 * (low_risk : Int)),
      high_risk, medium_risk, low_risk⟩

/-- `FileIssue` (main.py lines 68-73). -/
structure FileIssue where
  key : String
  value : String
  observation : String
  suggestion : String
  risk : String
deriving DecidableEq

/-- The four independent issue checks of `perform_basic_file_analysis`
(main.py lines 376-420) applied to one flattened entry, in source order. -/
def entryIssues (environment key : String) (value : ConfigValue) : List FileIssue :=
  let key_lower := pyLower key
  let value_str := pyLower (pyStr value)
  (if hasAny ["password", "secret", "key", "token", "api_key"] key_lower &&
      !(["", "null", "none", "***"].contains value_str) then
    [⟨key, pyStr value,
      "Sensitive data exposed in configuration: " ++ key,
      "Use environment variables or secure secret management", "High"⟩]
  else []) ++
  (if pyLower environment == "prod" && pyIn "debug" key_lower &&
      ["true", "1", "on"].contains value_str then
    [⟨key, pyStr value,
      "Debug mode enabled in production: " ++ key,
      "Disable debug mode in production environment", "Medium"⟩]
  else []) ++
  (if (pyIn "ssl" key_lower || pyIn "tls" key_lower) && pyIn "verify" key_lower &&
      ["false", "0", "off"].contains value_str then
    [⟨key, pyStr value,
      "SSL/TLS verification disabled: " ++ key,
      "Enable SSL/TLS verification for security", "High"⟩]
  else []) ++
  (match value with
   | VStr s =>
      if hasAny ["http://", "ftp://", "telnet://"] (pyLower s) then
        [⟨key, pyStr value,
          "Insecure protocol detected in " ++ key,
          "Use secure protocols (HTTPS, SFTP, SSH)", "Medium"⟩]
      else []
   | _ => [])

/-- The analysis loop of `perform_basic_file_analysis`
(main.py lines 371-422) over an already-parsed dict: flatten, then
accumulate the issues of every entry in traversal order. -/
def fileIssues (config_dict : List (String × ConfigValue)) (environment : String) :
    List FileIssue :=
  (flatten_dict config_dict "" ".").foldr
    (fun kv acc => entryIssues environment kv.1 kv.2 ++ acc) []

/-- `perform_basic_file_analysis` (main.py lines 368-425), parameterised by
the two library parsers, with the same error convention as
`perform_basic_comparison` (here the "File analysis error" HTTP 400). -/
def perform_basic_file_analysis (jp yp : String → Option ConfigValue)
    (config : String) (environment : String) : Except String (List FileIssue) :=
  match parse_config jp yp config with
  | Except.error e => Except.error ("File analysis error: " ++ e)
  | Except.ok parsed =>
      match parsed with
      | VMap config_dict => Except.ok (fileIssues config_dict environment)
      | _ => Except.error "File analysis error: object has no attribute items"

/-- `calculate_file_health_score` (main.py lines 427-453): 100 minus 30 per
High, 15 per Medium, 5 per Low, floored at 0; an empty issue list
short-circuits to a perfect score. -/
def calculate_file_health_score (issues : List FileIssue) : HealthScore :=
  if issues.isEmpty then ⟨100, 0, 0, 0⟩
  else
    let high_risk := (issues.filter (fun i => i.risk == "High")).length
    let medium_risk := (issues.filter (fun i => i.risk == "Medium")).length
    let low_risk := (issues.filter (fun i => i.risk == "Low")).length
    ⟨max 0 (100 - 30 * (high_risk : Int) - 15 * (medium_risk : Int) -
        5 * (low_risk : Int)),
      high_risk, medium_risk, low_risk⟩

/-! ## Helper lemmas -/

theorem dictAny_of_mem (m : List (String × ConfigValue)) (k : String)
    (v : ConfigValue) (hm : (k, v) ∈ m) (hv : pyEq v v = true) :
    (m.any fun kv => k == kv.1 && pyEq v kv.2) = true := by
  induction m with
  | nil => simp at hm
  | cons hd tl ih =>
    rw [List.any_cons]
    rcases List.mem_cons.mp hm with h | h
    · rw [← h]
      simp [hv]
    · simp [ih h]

mutual

theorem pyEq_refl : (v : ConfigValue) → noNaN v = true → pyEq v v = true
  | VNone, _ => rfl
  | VBool b, _ => by simp [pyEq]
  | VInt n, _ => by simp [pyEq]
  | VStr s, _ => by simp [pyEq]
  | VFloat PyFloat.nan, h => by simp [noNaN] at h
  | VFloat (PyFloat.inf b), _ => by simp [pyEq, pyFloatEq]
  | VFloat (PyFloat.finite q), _ => by simp [pyEq, pyFloatEq]
  | VSeq xs, h => by
      rw [noNaN] at h
      simp [pyEq, pyEqList_refl xs h]
  | VMap m, h => by
      rw [noNaN] at h
      simp [pyEq, pyEqDict_sub m m h (fun kv hk => hk)]

theorem pyEqList_refl : (xs : List ConfigValue) → noNaNList xs = true →
    pyEqList xs xs = true
  | [], _ => rfl
  | x :: xs, h => by
      rw [noNaNList, Bool.and_eq_true] at h
      simp [pyEqList, pyEq_refl x h.1, pyEqList_refl xs h.2]

theorem pyEqDict_sub : (rest m : List (String × ConfigValue)) →
    noNaNDict rest = true → (∀ kv, kv ∈ rest → kv ∈ m) → pyEqDict rest m = true
  | [], _, _, _ => rfl
  | (k, v) :: rest, m, h, hsub => by
      rw [noNaNDict, Bool.and_eq_true] at h
      have h1 : (k, v) ∈ m := hsub _ (List.mem_cons_self _ _)
      simp [pyEqDict, dictAny_of_mem m k v h1 (pyEq_refl v h.1),
        pyEqDict_sub rest m h.2 (fun kv hk => hsub kv (List.mem_cons_of_mem _ hk))]

end

theorem lookup_noNaN : (m : List (String × ConfigValue)) → (k : String) →
    (v : ConfigValue) → m.lookup k = some v → noNaNDict m = true → noNaN v = true
  | [], _, _, h, _ => by simp [List.lookup] at h
  | (k1, v1) :: rest, k, v, h, hn => by
      rw [noNaNDict, Bool.and_eq_true] at hn
      rw [List.lookup] at h
      split at h
      · rw [Option.some.injEq] at h
        rw [← h]
        exact hn.1
      · exact lookup_noNaN rest k v h hn.2

theorem filter_not_contains_self (ks : List String) :
    ks.filter (fun k => !ks.contains k) = [] := by
  rw [List.filter_eq_nil_iff]
  intro a ha
  simp [ha]

theorem comparisonResults_self (d : List (String × ConfigValue))
    (hn : noNaNDict (flatten_dict d "" ".") = true) :
    comparisonResults d d = [] := by
  simp only [comparisonResults, unionKeys]
  rw [filter_not_contains_self, List.append_nil, List.filterMap_eq_nil_iff]
  intro k hk
  have hv : noNaN (dictGet (flatten_dict d "" ".") k (VStr "MISSING")) = true := by
    cases hl : (flatten_dict d "" ".").lookup k with
    | none =>
        simp only [dictGet, hl]
        rfl
    | some v =>
        simp only [dictGet, hl]
        exact lookup_noNaN _ k v hl hn
  simp [pyEq_refl _ hv]

theorem dictInsert_of_fresh (m : List (String × ConfigValue)) (k : String)
    (v : ConfigValue) (h : (m.any fun kv => kv.1 == k) = false) :
    dictInsert m k v = m ++ [(k, v)] := by
  simp [dictInsert, h]

theorem foldl_dictInsert_fresh :
    (items : List (String × ConfigValue)) → (acc : List (String × ConfigValue)) →
    (items.map Prod.fst).Nodup →
    (∀ kv ∈ items, (acc.any fun x => x.1 == kv.1) = false) →
    items.foldl (fun acc kv => dictInsert acc kv.1 kv.2) acc = acc ++ items
  | [], acc, _, _ => by simp
  | (k, v) :: rest, acc, hnd, hdisj => by
      rw [List.foldl_cons]
      rw [dictInsert_of_fresh acc k v (hdisj (k, v) (List.mem_cons_self _ _))]
      have hnd' := hnd
      rw [List.map_cons, List.nodup_cons] at hnd'
      rw [foldl_dictInsert_fresh rest (acc ++ [(k, v)]) hnd'.2 ?_]
      · simp
      · intro kv hkv
        rw [List.any_append]
        have h1 : (acc.any fun x => x.1 == kv.1) = false :=
          hdisj kv (List.mem_cons_of_mem _ hkv)
        have h2 : kv.1 ≠ k := fun he => hnd'.1 (List.mem_map.mpr ⟨kv, hkv, he⟩)
        simp [h1, h2, Ne.symm h2]

theorem dictOf_id_of_nodup (items : List (String × ConfigValue))
    (h : (items.map Prod.fst).Nodup) : dictOf items = items := by
  rw [dictOf, foldl_dictInsert_fresh items [] h (fun kv _ => rfl)]
  simp

mutual

theorem flattenEntry_length : (v : ConfigValue) → (nk sep : String) →
    noCollideEntry v nk sep = true → (flattenEntry v nk sep).length = leafCountVal v
  | VMap m, nk, sep, h => by
      rw [noCollideEntry, Bool.and_eq_true, decide_eq_true_eq] at h
      rw [flattenEntry, dictOf_id_of_nodup _ h.1]
      rw [flattenItems_length m nk sep h.2]
      simp [leafCountVal]
  | VNone, nk, sep, _ => by simp [flattenEntry, leafCountVal]
  | VBool b, nk, sep, _ => by simp [flattenEntry, leafCountVal]
  | VInt n, nk, sep, _ => by simp [flattenEntry, leafCountVal]
  | VFloat f, nk, sep, _ => by simp [flattenEntry, leafCountVal]
  | VStr st, nk, sep, _ => by simp [flattenEntry, leafCountVal]
  | VSeq xs, nk, sep, _ => by simp [flattenEntry, leafCountVal]

theorem flattenItems_length : (l : List (String × ConfigValue)) → (p sep : String) →
    noCollideEntries l p sep = true → (flattenItems l p sep).length = leafCountDict l
  | [], _, _, _ => by simp [flattenItems, leafCountDict]
  | (k, v) :: rest, p, sep, h => by
      rw [noCollideEntries, Bool.and_eq_true] at h
      rw [flattenItems, List.length_append,
        flattenEntry_length v (joinKey p sep k) sep h.1,
        flattenItems_length rest p sep h.2]
      simp [leafCountDict]

end

theorem flatten_dict_length (d : List (String × ConfigValue)) (p sep : String)
    (h : noCollide d p sep = true) :
    (flatten_dict d p sep).length = leafCountDict d := by
  rw [noCollide, Bool.and_eq_true, decide_eq_true_eq] at h
  rw [flatten_dict, dictOf_id_of_nodup _ h.1]
  exact flattenItems_length d p sep h.2

/-! ## Claim theorems -/

/-- A parser that always fails, used to instantiate the abstract library
parsers in witnesses. -/
def jpNone : String → Option ConfigValue := fun _ => none

/-- A parser that parses everything to the empty mapping, used to
instantiate the abstract library parsers in witnesses. -/
def ypEmptyMap : String → Option ConfigValue := fun _ => some (VMap [])

/-- C2: `parse_config` attempts the JSON syntax first and the YAML syntax
only when JSON fails, so a document valid under both is resolved by the
JSON parser; it fails (with the invalid-format error) exactly when both
parsers fail, and on success returns the full parsed tree of the
succeeding parser. -/
theorem parse_config_try_order (jp yp : String → Option ConfigValue) (s : String) :
    (∀ v, jp s = some v → parse_config jp yp s = Except.ok v) ∧
    (∀ v, jp s = none → yp s = some v → parse_config jp yp s = Except.ok v) ∧
    ((∃ e, parse_config jp yp s = Except.error e) ↔ (jp s = none ∧ yp s = none)) := by
  refine ⟨?_, ?_, ?_⟩
  · intro v hj
    simp [parse_config, hj]
  · intro v hj hy
    simp [parse_config, hj, hy]
  · cases hj : jp s with
    | some v => simp [parse_config, hj]
    | none =>
        cases hy : yp s with
        | some v => simp [parse_config, hj, hy]
        | none => simp [parse_config, hj, hy]

/-- C2 witness: with a failing JSON parser and a YAML parser returning the
empty mapping, `parse_config` returns the YAML result. -/
theorem parse_config_try_order_witness :
    parse_config jpNone ypEmptyMap "x" = Except.ok (VMap []) :=
  (parse_config_try_order jpNone ypEmptyMap "x").2.1 (VMap []) rfl rfl

/-- C3: both health scorers compute `max 0 (100 - w_h*high - w_m*medium -
w_l*low)` with weights (25,10,5) for the two-sided scorer and (30,15,5)
for the single-file scorer, counting records by their risk string; the
empty list scores 100 with zero counts, the score is never negative, and
the concrete cases highRisk=2 (score 50 / 40) and highRisk=10 (score 0)
come out as the spec says. -/
theorem health_score_formulas :
    (∀ rs : List ComparisonResult,
      calculate_health_score rs =
        ⟨max 0 (100 - 25 * ((rs.filter (fun r => r.risk == "High")).length : Int)
            - 10 * ((rs.filter (fun r => r.risk == "Medium")).length : Int)
            - 5 * ((rs.filter (fun r => r.risk == "Low")).length : Int)),
          (rs.filter (fun r => r.risk == "High")).length,
          (rs.filter (fun r => r.risk == "Medium")).length,
          (rs.filter (fun r => r.risk == "Low")).length⟩) ∧
    (∀ iss : List FileIssue,
      calculate_file_health_score iss =
        ⟨max 0 (100 - 30 * ((iss.filter (fun i => i.risk == "High")).length : Int)
            - 15 * ((iss.filter (fun i => i.risk == "Medium")).length : Int)
            - 5 * ((iss.filter (fun i => i.risk == "Low")).length : Int)),
          (iss.filter (fun i => i.risk == "High")).length,
          (iss.filter (fun i => i.risk == "Medium")).length,
          (iss.filter (fun i => i.risk == "Low")).length⟩) ∧
    calculate_health_score [] = ⟨100, 0, 0, 0⟩ ∧
    calculate_file_health_score [] = ⟨100, 0, 0, 0⟩ ∧
    (∀ rs : List ComparisonResult, 0 ≤ (calculate_health_score rs).score) ∧
    (∀ iss : List FileIssue, 0 ≤ (calculate_file_health_score iss).score) ∧
    (calculate_health_score [⟨"k", "", "", "", "", "", "", "High"⟩,
      ⟨"k", "", "", "", "", "", "", "High"⟩]).score = 50 ∧
    (calculate_file_health_score [⟨"k", "", "", "", "High"⟩,
      ⟨"k", "", "", "", "High"⟩]).score = 40 ∧
    (calculate_health_score
      (List.replicate 10 ⟨"k", "", "", "", "", "", "", "High"⟩)).score = 0 := by
  have h1 : ∀ rs : List ComparisonResult,
      calculate_health_score rs =
        ⟨max 0 (100 - 25 * ((rs.filter (fun r => r.risk == "High")).length : Int)
            - 10 * ((rs.filter (fun r => r.risk == "Medium")).length : Int)
            - 5 * ((rs.filter (fun r => r.risk == "Low")).length : Int)),
          (rs.filter (fun r => r.risk == "High")).length,
          (rs.filter (fun r => r.risk == "Medium")).length,
          (rs.filter (fun r => r.risk == "Low")).length⟩ := by
    intro rs
    cases rs with
    | nil => rfl
    | cons r rest => rfl
  have h2 : ∀ iss : List FileIssue,
      calculate_file_health_score iss =
        ⟨max 0 (100 - 30 * ((iss.filter (fun i => i.risk == "High")).length : Int)
            - 15 * ((iss.filter (fun i => i.risk == "Medium")).length : Int)
            - 5 * ((iss.filter (fun i => i.risk == "Low")).length : Int)),
          (iss.filter (fun i => i.risk == "High")).length,
          (iss.filter (fun i => i.risk == "Medium")).length,
          (iss.filter (fun i => i.risk == "Low")).length⟩ := by
    intro iss
    cases iss with
    | nil => rfl
    | cons i rest => rfl
  refine ⟨h1, h2, rfl, rfl, ?_, ?_, rfl, rfl, rfl⟩
  · intro rs
    rw [h1]
    exact le_max_left 0 _
  · intro iss
    rw [h2]
    exact le_max_left 0 _

/-- C7: the flattener recurses exactly into mappings (joining the nested
key onto the running prefix with the separator), emits exactly one
`(prefix, value)` item for every non-mapping value — sequences included,
which stay opaque — and flattening an empty mapping yields an empty
mapping; when the produced dotted keys are collision-free (always the
case for keys free of the separator, and in particular in every Python
dict without engineered dotted keys) the flattened map has exactly one
entry per non-mapping leaf. -/
theorem flatten_dict_characterization :
    (∀ p sep, flatten_dict [] p sep = []) ∧
    (∀ v nk sep, (∀ m, v ≠ VMap m) → flattenEntry v nk sep = [(nk, v)]) ∧
    (∀ k m rest p sep,
      flattenItems ((k, VMap m) :: rest) p sep =
        flatten_dict m (joinKey p sep k) sep ++ flattenItems rest p sep) ∧
    (∀ d p sep, noCollide d p sep = true →
      (flatten_dict d p sep).length = leafCountDict d) ∧
    flatten_dict [("a", VMap [("b", VInt 1)]), ("c", VSeq [VInt 1, VInt 2])] "" "." =
      [("a.b", VInt 1), ("c", VSeq [VInt 1, VInt 2])] := by
  refine ⟨fun p sep => rfl, ?_, fun k m rest p sep => rfl, flatten_dict_length, rfl⟩
  intro v nk sep hv
  cases v with
  | VMap m => exact absurd rfl (hv m)
  | VNone => rfl
  | VBool b => rfl
  | VInt n => rfl
  | VFloat f => rfl
  | VStr s => rfl
  | VSeq xs => rfl

/-- C7 witness: a sequence value is emitted as a single opaque entry, and
on a concrete collision-free dict the flattened length equals the leaf
count. -/
theorem flatten_dict_characterization_witness :
    flattenEntry (VSeq [VInt 5]) "x" "." = [("x", VSeq [VInt 5])] ∧
    (flatten_dict [("a", VMap [("b", VInt 1)]), ("c", VBool true)] "" ".").length =
      leafCountDict [("a", VMap [("b", VInt 1)]), ("c", VBool true)] :=
  ⟨flatten_dict_characterization.2.1 (VSeq [VInt 5]) "x" "."
      (fun _ h => ConfigValue.noConfusion h),
    flatten_dict_characterization.2.2.2.1
      [("a", VMap [("b", VInt 1)]), ("c", VBool true)] "" "." rfl⟩

/-- An `if` whose branches are both `dev`-or-`prod` strings is itself a
`dev`-or-`prod` string. -/
theorem ite_dev_prod (c : Prop) [Decidable c] (a b : String)
    (ha : a = "dev" ∨ a = "prod") (hb : b = "dev" ∨ b = "prod") :
    (if c then a else b) = "dev" ∨ (if c then a else b) = "prod" := by
  by_cases h : c
  · rw [if_pos h]
    exact ha
  · rw [if_neg h]
    exact hb

/-- C10: for every key and every pair of values the problematic-side
classifier returns environment `dev` or `prod`; no input produces
`both`. -/
theorem determine_environment_dev_or_prod (key : String)
    (dev_val prod_val : ConfigValue) :
    (determine_problematic_environment key dev_val prod_val).2 = "dev" ∨
    (determine_problematic_environment key dev_val prod_val).2 = "prod" := by
  unfold determine_problematic_environment defaultDecision
  simp only [apply_ite Prod.snd]
  repeat' first
    | exact Or.inl rfl
    | exact Or.inr rfl
    | apply ite_dev_prod

/-- C5: the comparator's basic risk rating is Medium by default, High when
the lowercased key contains one of password/secret/key/token, and Low when
it contains one of debug/log/test but no security keyword — the security
check runs first, so at most one override applies — and every record
emitted by the comparison loop carries exactly this rating, so a
discrepancy whose key contains "password" is rated High regardless of the
problematic-side outcome. -/
theorem basic_risk_characterization :
    (∀ key, hasAny ["password", "secret", "key", "token"] (pyLower key) = true →
      basicRisk key = "High") ∧
    (∀ key, hasAny ["password", "secret", "key", "token"] (pyLower key) = false →
      hasAny ["debug", "log", "test"] (pyLower key) = true →
      basicRisk key = "Low") ∧
    (∀ key, hasAny ["password", "secret", "key", "token"] (pyLower key) = false →
      hasAny ["debug", "log", "test"] (pyLower key) = false →
      basicRisk key = "Medium") ∧
    (∀ key, pyIn "password" (pyLower key) = true → basicRisk key = "High") ∧
    (∀ dev_dict prod_dict r, r ∈ comparisonResults dev_dict prod_dict →
      r.risk = basicRisk r.key) := by
  refine ⟨?_, ?_, ?_, ?_, ?_⟩
  · intro key h
    simp [basicRisk, h]
  · intro key h1 h2
    simp [basicRisk, h1, h2]
  · intro key h1 h2
    simp [basicRisk, h1, h2]
  · intro key h
    have hs : hasAny ["password", "secret", "key", "token"] (pyLower key) = true := by
      simp [hasAny]
      exact Or.inl h
    simp [basicRisk, hs]
  · intro dd pd r hr
    simp only [comparisonResults] at hr
    rw [List.mem_filterMap] at hr
    obtain ⟨key, _, hf⟩ := hr
    split at hf
    · exact absurd hf (by simp)
    · rw [Option.some.injEq] at hf
      rw [← hf]

/-- C5 witness: concrete keys exercising each branch of the risk rating,
and a concrete comparator record carrying it. -/
theorem basic_risk_characterization_witness :
    basicRisk "db_password" = "High" ∧ basicRisk "app_debug" = "Low" ∧
    basicRisk "hostname" = "Medium" ∧ basicRisk "user_password_hash" = "High" ∧
    (⟨"debug", "MISSING", "False", "MISSING", "dev",
        "Configuration mismatch in debug",
        "Review and align debug values between environments", "Low"⟩ :
      ComparisonResult).risk = basicRisk "debug" :=
  ⟨basic_risk_characterization.1 "db_password" rfl,
    basic_risk_characterization.2.1 "app_debug" rfl rfl,
    basic_risk_characterization.2.2.1 "hostname" rfl rfl,
    basic_risk_characterization.2.2.2.1 "user_password_hash" rfl,
    basic_risk_characterization.2.2.2.2 [] [("debug", VBool false)] _
      (List.mem_singleton.mpr rfl)⟩

/-- C6: the single-file analyzer applies all four rules independently to
every flattened entry, accumulating every match with no deduplication or
early exit: {"api_key": "sk-live-123"} in environment "prod" yields exactly
one High issue for api_key whose observation reports exposed sensitive
data, while a single key matching two rules ({"ssl_key": "http://x"})
yields both of its issues. -/
theorem file_analysis_rules :
    fileIssues [("api_key", VStr "sk-live-123")] "prod" =
      [⟨"api_key", "sk-live-123",
        "Sensitive data exposed in configuration: api_key",
        "Use environment variables or secure secret management", "High"⟩] ∧
    pyIn "Sensitive data exposed"
      "Sensitive data exposed in configuration: api_key" = true ∧
    fileIssues [("ssl_key", VStr "http://x")] "prod" =
      [⟨"ssl_key", "http://x",
        "Sensitive data exposed in configuration: ssl_key",
        "Use environment variables or secure secret management", "High"⟩,
       ⟨"ssl_key", "http://x",
        "Insecure protocol detected in ssl_key",
        "Use secure protocols (HTTPS, SFTP, SSH)", "Medium"⟩] :=
  ⟨rfl, rfl, rfl⟩

/-- C9: for every key containing "debug" (case-insensitively) with both
sides present (not `None`) and no security keyword in the key, the
classifier reports prod exactly when the stringified lowercased prod value
is a truthy token, and dev otherwise; and the spec's example — dev
`{"debug": true, "db": {"host": "localhost"}}` against prod
`{"debug": false, "db": {"host": "prod.example.com"}}` — yields exactly
the two discrepancies `debug` (problematic side dev) and `db.host`
(problematic side dev). -/
theorem debug_rule_characterization :
    (∀ key dev_val prod_val,
      hasAny ["password", "secret", "key", "token"] (pyLower key) = false →
      pyIn "debug" (pyLower key) = true →
      isNone dev_val = false → isNone prod_val = false →
      determine_problematic_environment key dev_val prod_val =
        (if ["true", "1", "yes", "on", "enabled"].contains (pyLower (pyStr prod_val))
          then (pyStr prod_val, "prod") else (pyStr dev_val, "dev"))) ∧
    comparisonResults
        [("debug", VBool true), ("db", VMap [("host", VStr "localhost")])]
        [("debug", VBool false), ("db", VMap [("host", VStr "prod.example.com")])] =
      [⟨"debug", "True", "False", "True", "dev",
        "Configuration mismatch in debug",
        "Review and align debug values between environments", "Low"⟩,
       ⟨"db.host", "localhost", "prod.example.com", "localhost", "dev",
        "Configuration mismatch in db.host",
        "Review and align db.host values between environments", "Medium"⟩] := by
  constructor
  · intro key dev_val prod_val h1 h2 h3 h4
    simp [determine_problematic_environment, strLowerOrEmpty, h1, h2, h3, h4]
  · rfl

/-- C9 witness: the debug rule applied at the example's debug key. -/
theorem debug_rule_characterization_witness :
    determine_problematic_environment "debug" (VBool true) (VBool false) =
      ("True", "dev") :=
  (debug_rule_characterization.1 "debug" (VBool true) (VBool false)
    rfl rfl rfl rfl).trans rfl

/-- C1 counterexample: dev `{}` against prod `{"debug": false}`: the key
`debug` is present only on the prod side (the dev side holds the sentinel
"MISSING" after the comparator's lookup), yet the emitted discrepancy
record reports the absent dev side as problematic, not the present prod
side. -/
theorem missing_key_counterexample :
    comparisonResults [] [("debug", VBool false)] =
      [⟨"debug", "MISSING", "False", "MISSING", "dev",
        "Configuration mismatch in debug",
        "Review and align debug values between environments", "Low"⟩] ∧
    (flatten_dict [] "" ".").lookup "debug" = none ∧
    (flatten_dict [("debug", VBool false)] "" ".").lookup "debug" =
      some (VBool false) :=
  ⟨rfl, rfl, rfl⟩

/-- C1 amended: the classifier's absent-side rule fires on Python `None`
values only — when exactly one side is `None`, the present side's value
and environment are reported — but the comparator never passes `None` for
an absent key: it passes the string sentinel "MISSING", which the keyword
rules treat as an ordinary value, so the reported side for a key present
on exactly one side can be the absent one (see the counterexample). -/
theorem missing_side_none_rule :
    (∀ key prod_val, isNone prod_val = false →
      determine_problematic_environment key VNone prod_val =
        (pyStr prod_val, "prod")) ∧
    (∀ key dev_val, isNone dev_val = false →
      determine_problematic_environment key dev_val VNone =
        (pyStr dev_val, "dev")) ∧
    (∀ m key, m.lookup key = none →
      dictGet m key (VStr "MISSING") = VStr "MISSING") := by
  refine ⟨?_, ?_, ?_⟩
  · intro key prod_val h
    have h0 : isNone VNone = true := rfl
    simp [determine_problematic_environment, h0, h]
  · intro key dev_val h
    have h0 : isNone VNone = true := rfl
    simp [determine_problematic_environment, h0, h]
  · intro m key h
    simp [dictGet, h]

/-- C1 amended witness: the `None` rules and the sentinel lookup at
concrete inputs. -/
theorem missing_side_none_rule_witness :
    determine_problematic_environment "k" VNone (VBool true) = ("True", "prod") ∧
    determine_problematic_environment "k" (VBool true) VNone = ("True", "dev") ∧
    dictGet [] "debug" (VStr "MISSING") = VStr "MISSING" :=
  ⟨missing_side_none_rule.1 "k" (VBool true) rfl,
    missing_side_none_rule.2.1 "k" (VBool true) rfl,
    missing_side_none_rule.2.2 [] "debug" rfl⟩

/-- The integer parse attempted by the port rule (main.py lines 146-147):
`int(s)` when the lowercased stringification is purely numeric, else
`None`. -/
def parsedPort (v : ConfigValue) : Option Nat :=
  if pyIsDigit (strLowerOrEmpty v) then some (strToNat (strLowerOrEmpty v)) else none

theorem defaultDecision_dev (dev_val prod_val : ConfigValue)
    (dev_str prod_str : String) :
    defaultDecision dev_val prod_val dev_str prod_str = (pyStr dev_val, "dev") := by
  unfold defaultDecision
  repeat' split
  all_goals rfl

theorem determine_port_branch (key : String) (dev_val prod_val : ConfigValue)
    (h1 : hasAny ["password", "secret", "key", "token"] (pyLower key) = false)
    (h2 : pyIn "debug" (pyLower key) = false)
    (h3 : hasAny ["host", "url", "endpoint", "server"] (pyLower key) = false)
    (h4 : hasAny ["ssl", "tls", "secure", "https"] (pyLower key) = false)
    (h5 : pyIn "port" (pyLower key) = true)
    (h6 : isNone dev_val = false) (h7 : isNone prod_val = false) :
    determine_problematic_environment key dev_val prod_val =
      (if optTruthy (parsedPort dev_val) &&
          !optMem (parsedPort dev_val) standard_ports &&
          optMem (parsedPort prod_val) standard_ports then (pyStr dev_val, "dev")
       else if optTruthy (parsedPort prod_val) &&
          !optMem (parsedPort prod_val) standard_ports &&
          optMem (parsedPort dev_val) standard_ports then (pyStr prod_val, "prod")
       else defaultDecision dev_val prod_val (strLowerOrEmpty dev_val)
          (strLowerOrEmpty prod_val)) := by
  simp [determine_problematic_environment, parsedPort, h1, h2, h3, h4, h5, h6, h7]

/-- C8 amended: under the port rule (key contains "port", no
higher-priority rule matched, both sides present), with standard ports
{80, 443, 3000, 8000, 5000, 8080}: if the dev value is purely numeric with
a nonzero parsed port that is non-standard while the prod port is standard,
dev is problematic; if the prod value is purely numeric with a nonzero
parsed port that is non-standard while the dev port is standard, prod is
problematic; in every other case — including integer-parse failures, which
are swallowed, and a parsed port of 0, which Python truthiness treats like
a parse failure — the decision falls through to the default rule, which
always reports dev. -/
theorem port_rule_characterization :
    (∀ key dev_val prod_val n m,
      hasAny ["password", "secret", "key", "token"] (pyLower key) = false →
      pyIn "debug" (pyLower key) = false →
      hasAny ["host", "url", "endpoint", "server"] (pyLower key) = false →
      hasAny ["ssl", "tls", "secure", "https"] (pyLower key) = false →
      pyIn "port" (pyLower key) = true →
      isNone dev_val = false → isNone prod_val = false →
      parsedPort dev_val = some n → n ≠ 0 →
      n ∉ standard_ports →
      parsedPort prod_val = some m → m ∈ standard_ports →
      determine_problematic_environment key dev_val prod_val =
        (pyStr dev_val, "dev")) ∧
    (∀ key dev_val prod_val n m,
      hasAny ["password", "secret", "key", "token"] (pyLower key) = false →
      pyIn "debug" (pyLower key) = false →
      hasAny ["host", "url", "endpoint", "server"] (pyLower key) = false →
      hasAny ["ssl", "tls", "secure", "https"] (pyLower key) = false →
      pyIn "port" (pyLower key) = true →
      isNone dev_val = false → isNone prod_val = false →
      parsedPort prod_val = some m → m ≠ 0 →
      m ∉ standard_ports →
      parsedPort dev_val = some n → n ∈ standard_ports →
      determine_problematic_environment key dev_val prod_val =
        (pyStr prod_val, "prod")) ∧
    (∀ key dev_val prod_val,
      hasAny ["password", "secret", "key", "token"] (pyLower key) = false →
      pyIn "debug" (pyLower key) = false →
      hasAny ["host", "url", "endpoint", "server"] (pyLower key) = false →
      hasAny ["ssl", "tls", "secure", "https"] (pyLower key) = false →
      pyIn "port" (pyLower key) = true →
      isNone dev_val = false → isNone prod_val = false →
      (optTruthy (parsedPort dev_val) &&
        !optMem (parsedPort dev_val) standard_ports &&
        optMem (parsedPort prod_val) standard_ports) = false →
      (optTruthy (parsedPort prod_val) &&
        !optMem (parsedPort prod_val) standard_ports &&
        optMem (parsedPort dev_val) standard_ports) = false →
      determine_problematic_environment key dev_val prod_val =
        (pyStr dev_val, "dev")) ∧
    (∀ dev_val prod_val dev_str prod_str,
      defaultDecision dev_val prod_val dev_str prod_str =
        (pyStr dev_val, "dev")) := by
  refine ⟨?_, ?_, ?_, defaultDecision_dev⟩
  · intro key dev_val prod_val n m h1 h2 h3 h4 h5 h6 h7 hdp hn hns hpp hps
    rw [determine_port_branch key dev_val prod_val h1 h2 h3 h4 h5 h6 h7]
    have hg : (optTruthy (parsedPort dev_val) &&
        !optMem (parsedPort dev_val) standard_ports &&
        optMem (parsedPort prod_val) standard_ports) = true := by
      rw [hdp, hpp]
      simp [optTruthy, optMem, hn, hns, hps]
    rw [hg]
    simp
  · intro key dev_val prod_val n m h1 h2 h3 h4 h5 h6 h7 hpp hm hms hdp hds
    rw [determine_port_branch key dev_val prod_val h1 h2 h3 h4 h5 h6 h7]
    have hg1 : (optTruthy (parsedPort dev_val) &&
        !optMem (parsedPort dev_val) standard_ports &&
        optMem (parsedPort prod_val) standard_ports) = false := by
      rw [hdp, hpp]
      simp [optMem, hds, hms]
    have hg2 : (optTruthy (parsedPort prod_val) &&
        !optMem (parsedPort prod_val) standard_ports &&
        optMem (parsedPort dev_val) standard_ports) = true := by
      rw [hdp, hpp]
      simp [optTruthy, optMem, hm, hms, hds]
    rw [hg1, hg2]
    simp
  · intro key dev_val prod_val h1 h2 h3 h4 h5 h6 h7 hg1 hg2
    rw [determine_port_branch key dev_val prod_val h1 h2 h3 h4 h5 h6 h7]
    rw [hg1, hg2]
    simp [defaultDecision_dev]

/-- C8 amended witness: the three port-rule outcomes at concrete inputs. -/
theorem port_rule_characterization_witness :
    determine_problematic_environment "port" (VInt 8081) (VInt 80) =
      ("8081", "dev") ∧
    determine_problematic_environment "port" (VInt 443) (VInt 9999) =
      ("9999", "prod") ∧
    determine_problematic_environment "port" (VStr "eighty") (VStr "eleven") =
      ("eighty", "dev") :=
  ⟨port_rule_characterization.1 "port" (VInt 8081) (VInt 80) 8081 80
      rfl rfl rfl rfl rfl rfl rfl rfl (by decide) (by decide) rfl (by decide),
    port_rule_characterization.2.1 "port" (VInt 443) (VInt 9999) 443 9999
      rfl rfl rfl rfl rfl rfl rfl rfl (by decide) (by decide) rfl (by decide),
    port_rule_characterization.2.2.1 "port" (VStr "eighty") (VStr "eleven")
      rfl rfl rfl rfl rfl rfl rfl rfl rfl⟩

/-- C8 counterexample: key "port", dev 80 (standard), prod 0 (purely
numeric and non-standard): the claim as stated demands that prod be
reported problematic, but Python's truthiness test `if prod_port` treats
the parsed port 0 as unparsed, so the code falls through to the default
rule and reports dev. -/
theorem port_zero_counterexample :
    determine_problematic_environment "port" (VInt 80) (VInt 0) = ("80", "dev") ∧
    pyIsDigit (strLowerOrEmpty (VInt 0)) = true ∧
    standard_ports.contains (strToNat (strLowerOrEmpty (VInt 0))) = false ∧
    parsedPort (VInt 80) = some 80 ∧
    standard_ports.contains 80 = true :=
  ⟨rfl, rfl, rfl, rfl, rfl⟩

/-- A parser accepting exactly the text "42" as the integer 42, the way
the JSON library parses a top-level numeric scalar. -/
def jp42 : String → Option ConfigValue :=
  fun s => if s = "42" then some (VInt 42) else none

/-- C4 counterexample: the text "42" is accepted by the parser (a valid
top-level JSON scalar), yet comparing it with itself does not produce an
empty discrepancy list — the comparator errors out, because flattening a
non-mapping raises and the surrounding handler converts that into the
configuration-parsing error. -/
theorem compare_self_scalar_counterexample :
    parse_config jp42 jpNone "42" = Except.ok (VInt 42) ∧
    perform_basic_comparison jp42 jpNone "42" "42" =
      Except.error "Configuration parsing error: object has no attribute items" :=
  ⟨rfl, rfl⟩

/-- C4 amended: for every text that the parser (JSON attempt, then YAML)
accepts as a mapping none of whose flattened values contains a float NaN,
comparing the text with itself yields an empty discrepancy list, and the
health score of that empty list is score 100 with zero risk counts.
Outside that domain the property fails: a text accepted as a non-mapping
makes the comparator error (see the counterexample), and a mapping
holding a NaN — Python's json accepts `NaN`, YAML accepts `.nan` — yields
a spurious self-discrepancy for that key (two independent parses produce
NaN values, which compare unequal), scoring 90 instead of 100. -/
theorem compare_self_empty (jp yp : String → Option ConfigValue) (x : String)
    (m : List (String × ConfigValue))
    (h : parse_config jp yp x = Except.ok (VMap m))
    (hn : noNaNDict (flatten_dict m "" ".") = true) :
    (perform_basic_comparison jp yp x x = Except.ok [] ∧
      calculate_health_score [] = ⟨100, 0, 0, 0⟩) ∧
    comparisonResults [("a", VFloat PyFloat.nan)] [("a", VFloat PyFloat.nan)] =
      [⟨"a", "nan", "nan", "nan", "dev", "Configuration mismatch in a",
        "Review and align a values between environments", "Medium"⟩] ∧
    (calculate_health_score [⟨"a", "nan", "nan", "nan", "dev",
        "Configuration mismatch in a",
        "Review and align a values between environments", "Medium"⟩]).score = 90 := by
  refine ⟨⟨?_, rfl⟩, rfl, rfl⟩
  unfold perform_basic_comparison
  rw [h]
  simp [comparisonResults_self m hn]

/-- C4 amended witness: comparing the empty-mapping text with itself,
whose flattened map trivially holds no NaN. -/
theorem compare_self_empty_witness :
    perform_basic_comparison jpNone ypEmptyMap "x" "x" = Except.ok [] ∧
    calculate_health_score [] = ⟨100, 0, 0, 0⟩ :=
  (compare_self_empty jpNone ypEmptyMap "x" [] rfl rfl).1
